import Mathlib

/-!
# Crashdump (pkg/cluster/crashdump.go)

A shallow embedding of `Crashdump` and `getKubernetesClient`.

Both functions are straight-line sequences of calls to collaborators that live
outside the file (the cluster accessor, `os`, `path/filepath`, the Talos API
client, client-go, and the support-bundle library).  The collaborators are
taken as parameters (`Cluster`, `Env`): each one is a function from the
arguments the source passes to the value/error pair the Go call returns.
A run is the ordered list of calls and writes (`Event`) the function performs
together with the way it ends (`Outcome`).  The context argument `ctx` carries
no data the two functions inspect and is left out; a cancelled context shows up
as errors returned by the collaborators.

Three endings are modelled: the normal return, the failure of one of the two
index expressions `IPs[0]` and `nodes[0]`, and the nil-pointer dereference of
`c.Kubeconfig` (line 82) on the nil client that `Crashdump` passes on after
`client.New` returned nil (lines 46-49 log the error and do not return).
-/

namespace Talos

/-! ## Data model -/

/-- Go `error` value that is not nil; `text` is what `Error()` returns, which is
what the verb `%s` prints. -/
structure GoError where
  text : String
deriving DecidableEq, Repr

/-- Open file handle returned by `os.Create` (`*os.File`). -/
structure File where
  name : String
deriving DecidableEq, Repr

/-- Talos API client behind a non-nil `*client.Client`. -/
structure Client where
  id : Nat
deriving DecidableEq, Repr

/-- Kubeconfig document, the `[]byte` returned by `c.Kubeconfig`. -/
abbrev Bytes := List Nat

/-- Value of `clientcmd.ClientConfig`. -/
structure ClientConfig where
  id : Nat
deriving DecidableEq, Repr

/-- Value behind `*rest.Config`. -/
structure RestConfig where
  id : Nat
deriving DecidableEq, Repr

/-- Value behind a non-nil `*k8s.Clientset`. -/
structure Clientset where
  id : Nat
deriving DecidableEq, Repr

/-- One diagnostic collector returned by `collectors.GetForOptions`. -/
structure Collector where
  id : Nat
deriving DecidableEq, Repr

/-- Network address (`netip.Addr`); `text` is the result of its `String()` method. -/
structure Addr where
  text : String
deriving DecidableEq, Repr

/-- The method `netip.Addr.String()`. -/
def IPString (a : Addr) : String := a.text

/-- Node entry `provision.NodeInfo`; only the field `IPs` is read. -/
structure NodeInfo where
  IPs : List Addr
deriving DecidableEq, Repr

/-- Result of `cluster.Info()`; only the field `Nodes` is read. -/
structure ClusterInfo where
  Nodes : List NodeInfo
deriving DecidableEq, Repr

/-- The two methods of `provision.Cluster` that `Crashdump` calls. -/
structure Cluster where
  StatePath : Except GoError String
  Info : ClusterInfo

/-- Values of `bundle.Option` that `Crashdump` builds.  Pointer arguments that
may be nil are `Option`s (`none` is nil). -/
inductive BundleOption where
  | WithArchiveOutput (f : File)
  | WithTalosClient (c : Option Client)
  | WithNodes (nodes : List String)
  | WithNumWorkers (n : Int)
  | WithKubernetesClient (k : Option Clientset)
deriving DecidableEq, Repr

/-- Result of `bundle.NewOptions(opts...)`: the option list that was finalized. -/
structure Options where
  opts : List BundleOption
deriving DecidableEq, Repr

/-- The collaborators outside the file.  A call whose value is only used when
its error is nil returns `Except`; `client.New` and `collectors.GetForOptions`,
whose values are used whatever the error, return the Go pair. -/
structure Env where
  -- `filepath.Join(dir, name)`
  Join : String → String → String
  -- `os.Create(path)`
  Create : String → Except GoError File
  -- `client.New(ctx, client.WithDefaultConfig())`: the pointer (`none` is nil) and the error
  New : Option Client × Option GoError
  -- `c.Kubeconfig(client.WithNodes(ctx, endpoint))` on a client that is not nil
  Kubeconfig : Client → String → Except GoError Bytes
  -- `clientcmd.NewClientConfigFromBytes(kubeconfig)`
  NewClientConfigFromBytes : Bytes → Except GoError ClientConfig
  -- `config.ClientConfig()`
  ClientConfig : ClientConfig → Except GoError RestConfig
  -- `k8s.NewForConfig(restconfig)`
  NewForConfig : RestConfig → Except GoError Clientset
  -- `clientset.CoreV1().Namespaces().Get(ctx, name, v1.GetOptions)`: the error only
  NamespacesGet : Clientset → String → Option GoError
  -- `collectors.GetForOptions(ctx, options)`: the collectors and the error
  GetForOptions : Options → List Collector × Option GoError
  -- `support.CreateSupportBundle(ctx, options, collectors...)`
  CreateSupportBundle : Options → List Collector → Option GoError

/-- One call or write of a run, in the order the source performs them.
`WithOpt option` is a call of one of the option constructors of package
`bundle` (lines 58-61 and 66), which returns `option`.  `Kubeconfig c endpoint`
is the call `c.Kubeconfig(client.WithNodes(ctx, endpoint))` of line 82, made on
whatever `c` is. -/
inductive Event where
  | StatePath
  | Create (path : String)
  | Fprintf (line : String)
  | New
  | Info
  | WithOpt (option : BundleOption)
  | Kubeconfig (c : Option Client) (endpoint : String)
  | NewClientConfigFromBytes (kubeconfig : Bytes)
  | ClientConfig (config : ClientConfig)
  | NewForConfig (restconfig : RestConfig)
  | NamespacesGet (clientset : Clientset) (name : String)
  | NewOptions (opts : List BundleOption)
  | GetForOptions (options : Options)
  | CreateSupportBundle (options : Options) (collectors : List Collector)
  | Close (f : File)
deriving DecidableEq, Repr

/-- How a run ends: a normal return, the runtime failure of an index expression
(`IPs[0]`, `nodes[0]`) that is out of range, or the runtime failure of a method
call that reads a nil receiver. -/
inductive Outcome where
  | returned
  | indexOutOfRange
  | nilDereference
deriving DecidableEq, Repr

/-- Calls and result of one call of `getKubernetesClient`.  `ret` is the pair it
returns, the clientset pointer (`none` is nil) and the error (`none` is nil);
`ret = none` says the call did not return: it ended in a nil-pointer
dereference. -/
structure KubeResult where
  trace : List Event
  ret : Option (Option Clientset × Option GoError)
deriving DecidableEq, Repr

/-- Calls, writes and ending of one call of `Crashdump`. -/
structure Run where
  trace : List Event
  outcome : Outcome
deriving DecidableEq, Repr

/-! ## The functions -/

/-- Modelled from the spec: the method `Kubeconfig` of `*client.Client`, which
is in package `pkg/machinery/client` and not among the sources embedded here.
The spec gives it as `Kubeconfig(context, node-selector) -> (bytes, error)` on
an API client and names operating on a nil client a fault (4.1, step 4): the
method reads its receiver, so on a nil receiver the call does not return
(`none`, a nil-pointer dereference); on a client it returns what the
collaborator `env.Kubeconfig` returns. -/
def callKubeconfig (env : Env) (c : Option Client) (endpoint : String) :
    Option (Except GoError Bytes) :=
  match c with
  | none => none
  | some cl => some (env.Kubeconfig cl endpoint)

/-- The function `getKubernetesClient` (lines 81-109). -/
def getKubernetesClient (env : Env) (c : Option Client) (endpoint : String) : KubeResult :=
  match callKubeconfig env c endpoint with
  | none => ⟨[.Kubeconfig c endpoint], none⟩
  | some (.error err) => ⟨[.Kubeconfig c endpoint], some (none, some err)⟩
  | some (.ok kubeconfig) =>
    match env.NewClientConfigFromBytes kubeconfig with
    | .error err =>
      ⟨[.Kubeconfig c endpoint, .NewClientConfigFromBytes kubeconfig], some (none, some err)⟩
    | .ok config =>
      match env.ClientConfig config with
      | .error err =>
        ⟨[.Kubeconfig c endpoint, .NewClientConfigFromBytes kubeconfig,
          .ClientConfig config], some (none, some err)⟩
      | .ok restconfig =>
        match env.NewForConfig restconfig with
        | .error err =>
          ⟨[.Kubeconfig c endpoint, .NewClientConfigFromBytes kubeconfig,
            .ClientConfig config, .NewForConfig restconfig], some (none, some err)⟩
        | .ok clientset =>
          match env.NamespacesGet clientset "kube-system" with
          | some err =>
            ⟨[.Kubeconfig c endpoint, .NewClientConfigFromBytes kubeconfig,
              .ClientConfig config, .NewForConfig restconfig,
              .NamespacesGet clientset "kube-system"], some (none, some err)⟩
          | none =>
            ⟨[.Kubeconfig c endpoint, .NewClientConfigFromBytes kubeconfig,
              .ClientConfig config, .NewForConfig restconfig,
              .NamespacesGet clientset "kube-system"], some (some clientset, none)⟩

/-- The closure passed to `xslices.Map` (line 52): `nodeInfo.IPs[0].String()`;
`none` is the index-out-of-range failure of `IPs[0]`. -/
def firstIP (nodeInfo : NodeInfo) : Option String :=
  match nodeInfo.IPs with
  | [] => none
  | ip :: _ => some (IPString ip)

/-- The generic `xslices.Map`, with a function that may fail: elements are
mapped in order and the first failure ends the whole call. -/
def xslicesMap {α β : Type} (fn : α → Option β) : List α → Option (List β)
  | [] => some []
  | t :: slc =>
    match fn t with
    | none => none
    | some r =>
      match xslicesMap fn slc with
      | none => none
      | some rs => some (r :: rs)

/-- The statement `if err != nil` with body `fmt.Fprintf(out, format, err)`,
where `format` is `text` followed by `%s\n`. -/
def logErr (text : String) : Option GoError → List Event
  | none => []
  | some err => [.Fprintf (text ++ err.text ++ "\n")]

/-- Lines 57-62: the base option list. -/
def baseOpts (supportFile : File) (c : Option Client) (nodes : List String) :
    List BundleOption :=
  [.WithArchiveOutput supportFile, .WithTalosClient c, .WithNodes nodes, .WithNumWorkers 1]

/-- Lines 65-67: the options appended after `getKubernetesClient` returned
`kubeclient, err`: the Kubernetes-client option when `err == nil`, nothing
otherwise. -/
def kubeOpts (kubeclient : Option Clientset) : Option GoError → List BundleOption
  | none => [.WithKubernetesClient kubeclient]
  | some _ => []

/-- Lines 69-78 of `Crashdump`: finalize the options, resolve the collectors,
create the bundle. -/
def bundleSteps (env : Env) (opts : List BundleOption) : List Event :=
  let options : Options := ⟨opts⟩
  let r := env.GetForOptions options
  [.NewOptions opts, .GetForOptions options]
    ++ logErr "error creating crashdump collector options: " r.2
    ++ [.CreateSupportBundle options r.1]
    ++ logErr "error creating crashdump: " (env.CreateSupportBundle options r.1)

/-- Lines 46-78 of `Crashdump`: everything after the `defer`. -/
def crashdumpBody (env : Env) (cluster : Cluster) (supportFile : File) : Run :=
  let c := env.New.1
  let t := [Event.New] ++ logErr "error creating crashdump: " env.New.2 ++ [Event.Info]
  match xslicesMap firstIP cluster.Info.Nodes with
  | none => ⟨t, .indexOutOfRange⟩
  | some nodes =>
    match nodes with
    | [] => ⟨t, .indexOutOfRange⟩
    | controlplane :: _ =>
      let opts := baseOpts supportFile c nodes
      let k := getKubernetesClient env c controlplane
      match k.ret with
      | none => ⟨t ++ opts.map .WithOpt ++ k.trace, .nilDereference⟩
      | some (kubeclient, err) =>
        ⟨t ++ opts.map .WithOpt ++ k.trace ++ (kubeOpts kubeclient err).map .WithOpt
          ++ bundleSteps env (opts ++ kubeOpts kubeclient err), .returned⟩

/-- The function `Crashdump` (lines 27-79).  The deferred `supportFile.Close()`
runs when the body ends, by return or by a runtime failure. -/
def Crashdump (env : Env) (cluster : Cluster) : Run :=
  match cluster.StatePath with
  | .error err =>
    ⟨[.StatePath, .Fprintf ("error getting state path: " ++ err.text ++ "\n")], .returned⟩
  | .ok statePath =>
    let supportZip := env.Join statePath "support.zip"
    match env.Create supportZip with
    | .error err =>
      ⟨[.StatePath, .Create supportZip,
        .Fprintf ("error creating crashdump file: " ++ err.text ++ "\n")], .returned⟩
    | .ok supportFile =>
      let body := crashdumpBody env cluster supportFile
      ⟨[.StatePath, .Create supportZip] ++ body.trace ++ [.Close supportFile], body.outcome⟩

/-! ## Observations on a trace -/

/-- The strings written to `out`, one per `fmt.Fprintf` call, in order. -/
def writes (t : List Event) : List String :=
  t.filterMap fun ev => match ev with
    | .Fprintf line => some line
    | _ => none

/-- The files closed, one per `Close` call, in order. -/
def closes (t : List Event) : List File :=
  t.filterMap fun ev => match ev with
    | .Close f => some f
    | _ => none

/-- The options built by the option constructors of package `bundle`, in order. -/
def built (t : List Event) : List BundleOption :=
  t.filterMap fun ev => match ev with
    | .WithOpt option => some option
    | _ => none

/-- The option lists finalized by `bundle.NewOptions`, in order. -/
def finalized (t : List Event) : List (List BundleOption) :=
  t.filterMap fun ev => match ev with
    | .NewOptions opts => some opts
    | _ => none

/-- The options handed to collector resolution, one per call, in order. -/
def resolved (t : List Event) : List Options :=
  t.filterMap fun ev => match ev with
    | .GetForOptions options => some options
    | _ => none

/-- The options and collectors handed to bundle creation, one pair per call, in
order. -/
def bundled (t : List Event) : List (Options × List Collector) :=
  t.filterMap fun ev => match ev with
    | .CreateSupportBundle options collectors => some (options, collectors)
    | _ => none

/-- The node lists carried by the `WithNodes` options of an option list. -/
def nodesOf (opts : List BundleOption) : List (List String) :=
  opts.filterMap fun o => match o with
    | .WithNodes nodes => some nodes
    | _ => none

/-- The endpoints of the kubeconfig calls, the first step of every call of
`getKubernetesClient`. -/
def endpoints (t : List Event) : List String :=
  t.filterMap fun ev => match ev with
    | .Kubeconfig _ endpoint => some endpoint
    | _ => none

/-- Whether an event is a call made by a step after the archive file is
created: API client construction, node-list read, option building, a step of
the Kubernetes client factory, option finalization, collector resolution,
bundle creation. -/
def Event.isLaterStep : Event → Bool
  | .StatePath => false
  | .Create _ => false
  | .Fprintf _ => false
  | .Close _ => false
  | _ => true

/-- Whether an event is a call of the Kubernetes client factory, of option
finalization, of collector resolution or of bundle creation. -/
def Event.isBundling : Event → Bool
  | .Kubeconfig _ _ => true
  | .NewClientConfigFromBytes _ => true
  | .ClientConfig _ => true
  | .NewForConfig _ => true
  | .NamespacesGet _ _ => true
  | .NewOptions _ => true
  | .GetForOptions _ => true
  | .CreateSupportBundle _ _ => true
  | _ => false

/-- The calls made by the steps after the archive file is created, in order. -/
def calls (t : List Event) : List Event :=
  t.filter fun ev => ev.isLaterStep

/-- The line an error prints: nothing for a nil error, else `text` followed by
the error text and a newline. -/
def errLine (text : String) : Option GoError → List String
  | none => []
  | some err => [text ++ err.text ++ "\n"]

/-- A node list is valid when it is non-empty and every node has an IP. -/
def validNodes (ns : List NodeInfo) : Prop :=
  ns ≠ [] ∧ ∀ n ∈ ns, n.IPs ≠ []

instance (ns : List NodeInfo) : Decidable (validNodes ns) := by
  unfold validNodes; infer_instance

/-! ## Sample inputs -/

/-- Three nodes, the first with two addresses. -/
def sampleNodes : List NodeInfo :=
  [⟨[⟨"10.5.0.2"⟩, ⟨"fd00::2"⟩]⟩, ⟨[⟨"10.5.0.3"⟩]⟩, ⟨[⟨"10.5.0.4"⟩]⟩]

/-- A three-node cluster whose state path resolves. -/
def sampleCluster : Cluster := ⟨.ok "/state", ⟨sampleNodes⟩⟩

/-- A cluster whose state path cannot be resolved. -/
def noStateCluster : Cluster := ⟨.error ⟨"no state"⟩, ⟨sampleNodes⟩⟩

/-- A cluster without nodes. -/
def emptyCluster : Cluster := ⟨.ok "/state", ⟨[]⟩⟩

/-- A cluster whose second node has no IP. -/
def noIPCluster : Cluster := ⟨.ok "/state", ⟨[⟨[⟨"10.5.0.2"⟩]⟩, ⟨[]⟩]⟩⟩

/-- Collaborators that all succeed. -/
def sampleEnv : Env where
  Join := fun dir name => dir ++ "/" ++ name
  Create := fun path => .ok ⟨path⟩
  New := (some ⟨1⟩, none)
  Kubeconfig := fun _ _ => .ok [107, 56, 115]
  NewClientConfigFromBytes := fun _ => .ok ⟨2⟩
  ClientConfig := fun _ => .ok ⟨3⟩
  NewForConfig := fun _ => .ok ⟨4⟩
  NamespacesGet := fun _ _ => none
  GetForOptions := fun _ => ([⟨5⟩, ⟨6⟩], none)
  CreateSupportBundle := fun _ _ => none

/-- The archive file cannot be created. -/
def envNoCreate : Env :=
  { sampleEnv with Create := fun _ => .error ⟨"permission denied"⟩ }

/-- The Kubernetes API does not answer the namespace probe. -/
def envKubeDown : Env :=
  { sampleEnv with NamespacesGet := fun _ _ => some ⟨"connection refused"⟩ }

/-- The Talos API client cannot be constructed: `client.New` returns nil and an
error. -/
def envNoClient : Env :=
  { sampleEnv with New := (none, some ⟨"failed to determine endpoints"⟩) }

/-- The kubeconfig cannot be fetched from the Talos API. -/
def envNoKubeconfig : Env :=
  { sampleEnv with Kubeconfig := fun _ _ => .error ⟨"rpc unavailable"⟩ }

/-- Collector resolution and bundle creation both fail. -/
def envNoBundle : Env :=
  { sampleEnv with
    GetForOptions := fun _ => ([], some ⟨"no collectors"⟩)
    CreateSupportBundle := fun _ _ => some ⟨"archive write failed"⟩ }

/-- The Kubernetes client factory and collector resolution both fail, with a
Talos client that was constructed. -/
def envDegraded : Env :=
  { sampleEnv with
    Kubeconfig := fun _ _ => .error ⟨"rpc unavailable"⟩
    GetForOptions := fun _ => ([], some ⟨"no collectors"⟩) }

/-! ## Lemmas on the observations -/

theorem getLast?_append_singleton {α : Type} (l : List α) (a : α) :
    (l ++ [a]).getLast? = some a := by
  simp [List.getLast?_append]

theorem writes_append (s t : List Event) : writes (s ++ t) = writes s ++ writes t := by
  simp [writes]

theorem closes_append (s t : List Event) : closes (s ++ t) = closes s ++ closes t := by
  simp [closes]

theorem built_append (s t : List Event) : built (s ++ t) = built s ++ built t := by
  simp [built]

theorem finalized_append (s t : List Event) :
    finalized (s ++ t) = finalized s ++ finalized t := by
  simp [finalized]

theorem resolved_append (s t : List Event) :
    resolved (s ++ t) = resolved s ++ resolved t := by
  simp [resolved]

theorem bundled_append (s t : List Event) :
    bundled (s ++ t) = bundled s ++ bundled t := by
  simp [bundled]

theorem endpoints_append (s t : List Event) :
    endpoints (s ++ t) = endpoints s ++ endpoints t := by
  simp [endpoints]

theorem calls_append (s t : List Event) : calls (s ++ t) = calls s ++ calls t := by
  simp [calls]

theorem writes_logErr (text : String) (e : Option GoError) :
    writes (logErr text e) = errLine text e := by
  cases e <;> rfl

theorem closes_logErr (text : String) (e : Option GoError) :
    closes (logErr text e) = [] := by
  cases e <;> rfl

theorem built_logErr (text : String) (e : Option GoError) :
    built (logErr text e) = [] := by
  cases e <;> rfl

theorem finalized_logErr (text : String) (e : Option GoError) :
    finalized (logErr text e) = [] := by
  cases e <;> rfl

theorem resolved_logErr (text : String) (e : Option GoError) :
    resolved (logErr text e) = [] := by
  cases e <;> rfl

theorem bundled_logErr (text : String) (e : Option GoError) :
    bundled (logErr text e) = [] := by
  cases e <;> rfl

theorem endpoints_logErr (text : String) (e : Option GoError) :
    endpoints (logErr text e) = [] := by
  cases e <;> rfl

theorem calls_logErr (text : String) (e : Option GoError) :
    calls (logErr text e) = [] := by
  cases e <;> rfl

theorem isBundling_logErr (text : String) (e : Option GoError) :
    ∀ ev ∈ logErr text e, ev.isBundling = false := by
  cases e <;> simp [logErr, Event.isBundling]

/-! ## Lemmas on option building -/

theorem writes_withOpt (opts : List BundleOption) :
    writes (opts.map Event.WithOpt) = [] := by
  induction opts with
  | nil => rfl
  | cons o os ih => simp [writes]

theorem closes_withOpt (opts : List BundleOption) :
    closes (opts.map Event.WithOpt) = [] := by
  induction opts with
  | nil => rfl
  | cons o os ih => simp [closes]

theorem built_withOpt (opts : List BundleOption) :
    built (opts.map Event.WithOpt) = opts := by
  induction opts with
  | nil => rfl
  | cons o os ih => simpa [built] using ih

theorem finalized_withOpt (opts : List BundleOption) :
    finalized (opts.map Event.WithOpt) = [] := by
  induction opts with
  | nil => rfl
  | cons o os ih => simp [finalized]

theorem resolved_withOpt (opts : List BundleOption) :
    resolved (opts.map Event.WithOpt) = [] := by
  induction opts with
  | nil => rfl
  | cons o os ih => simp [resolved]

theorem bundled_withOpt (opts : List BundleOption) :
    bundled (opts.map Event.WithOpt) = [] := by
  induction opts with
  | nil => rfl
  | cons o os ih => simp [bundled]

theorem endpoints_withOpt (opts : List BundleOption) :
    endpoints (opts.map Event.WithOpt) = [] := by
  induction opts with
  | nil => rfl
  | cons o os ih => simp [endpoints]

theorem calls_withOpt (opts : List BundleOption) :
    calls (opts.map Event.WithOpt) = opts.map Event.WithOpt := by
  induction opts with
  | nil => rfl
  | cons o os ih =>
    have hstep : calls (Event.WithOpt o :: os.map Event.WithOpt)
        = Event.WithOpt o :: calls (os.map Event.WithOpt) := by
      simp [calls, Event.isLaterStep]
    simp only [List.map_cons, hstep, ih]

theorem isBundling_withOpt (opts : List BundleOption) :
    ∀ ev ∈ opts.map Event.WithOpt, ev.isBundling = false := by
  intro ev hev
  obtain ⟨o, _, rfl⟩ := List.mem_map.mp hev
  rfl

theorem nodesOf_baseOpts_append (supportFile : File) (c : Option Client)
    (nodes : List String) (kubeclient : Option Clientset) (err : Option GoError) :
    nodesOf (baseOpts supportFile c nodes ++ kubeOpts kubeclient err) = [nodes] := by
  cases err <;> simp [nodesOf, baseOpts, kubeOpts]

/-! ## Lemmas on `getKubernetesClient` -/

theorem getKubernetesClient_writes (env : Env) (c : Option Client) (endpoint : String) :
    writes (getKubernetesClient env c endpoint).trace = [] := by
  unfold getKubernetesClient
  repeat' split
  all_goals rfl

theorem getKubernetesClient_closes (env : Env) (c : Option Client) (endpoint : String) :
    closes (getKubernetesClient env c endpoint).trace = [] := by
  unfold getKubernetesClient
  repeat' split
  all_goals rfl

theorem getKubernetesClient_built (env : Env) (c : Option Client) (endpoint : String) :
    built (getKubernetesClient env c endpoint).trace = [] := by
  unfold getKubernetesClient
  repeat' split
  all_goals rfl

theorem getKubernetesClient_finalized (env : Env) (c : Option Client) (endpoint : String) :
    finalized (getKubernetesClient env c endpoint).trace = [] := by
  unfold getKubernetesClient
  repeat' split
  all_goals rfl

theorem getKubernetesClient_resolved (env : Env) (c : Option Client) (endpoint : String) :
    resolved (getKubernetesClient env c endpoint).trace = [] := by
  unfold getKubernetesClient
  repeat' split
  all_goals rfl

theorem getKubernetesClient_bundled (env : Env) (c : Option Client) (endpoint : String) :
    bundled (getKubernetesClient env c endpoint).trace = [] := by
  unfold getKubernetesClient
  repeat' split
  all_goals rfl

theorem getKubernetesClient_endpoints (env : Env) (c : Option Client) (endpoint : String) :
    endpoints (getKubernetesClient env c endpoint).trace = [endpoint] := by
  unfold getKubernetesClient
  repeat' split
  all_goals rfl

theorem getKubernetesClient_calls (env : Env) (c : Option Client) (endpoint : String) :
    calls (getKubernetesClient env c endpoint).trace
      = (getKubernetesClient env c endpoint).trace := by
  unfold getKubernetesClient
  repeat' split
  all_goals rfl

/-- On a nil client the factory makes the kubeconfig call and does not return. -/
theorem getKubernetesClient_nil (env : Env) (endpoint : String) :
    getKubernetesClient env none endpoint = ⟨[.Kubeconfig none endpoint], none⟩ := by
  simp [getKubernetesClient, callKubeconfig]

/-- On a client that is not nil the factory returns. -/
theorem getKubernetesClient_returns (env : Env) (cl : Client) (endpoint : String) :
    ∃ kubeclient err,
      (getKubernetesClient env (some cl) endpoint).ret = some (kubeclient, err) := by
  unfold getKubernetesClient callKubeconfig
  repeat' split
  all_goals first
    | exact ⟨_, _, rfl⟩
    | simp_all

/-- A call of `getKubernetesClient` that returns a nil error went through all
five steps without an error and returns the clientset it constructed. -/
theorem getKubernetesClient_ok (env : Env) (c : Option Client) (endpoint : String)
    (kubeclient : Option Clientset)
    (h : (getKubernetesClient env c endpoint).ret = some (kubeclient, none)) :
    ∃ kubeconfig config restconfig clientset,
      callKubeconfig env c endpoint = some (.ok kubeconfig)
      ∧ env.NewClientConfigFromBytes kubeconfig = .ok config
      ∧ env.ClientConfig config = .ok restconfig
      ∧ env.NewForConfig restconfig = .ok clientset
      ∧ env.NamespacesGet clientset "kube-system" = none
      ∧ kubeclient = some clientset := by
  unfold getKubernetesClient at h
  cases h1 : callKubeconfig env c endpoint with
  | none => simp [h1] at h
  | some r =>
    cases r with
    | error e => simp [h1] at h
    | ok kubeconfig =>
      cases h2 : env.NewClientConfigFromBytes kubeconfig with
      | error e => simp [h1, h2] at h
      | ok config =>
        cases h3 : env.ClientConfig config with
        | error e => simp [h1, h2, h3] at h
        | ok restconfig =>
          cases h4 : env.NewForConfig restconfig with
          | error e => simp [h1, h2, h3, h4] at h
          | ok clientset =>
            cases h5 : env.NamespacesGet clientset "kube-system" with
            | some e => simp [h1, h2, h3, h4, h5] at h
            | none =>
              refine ⟨kubeconfig, config, restconfig, clientset, rfl, h2, h3, h4, h5, ?_⟩
              simp [h1, h2, h3, h4, h5] at h
              exact h.symm

/-! ## Lemmas on the node list -/

theorem xslicesMap_length {α β : Type} (fn : α → Option β) :
    ∀ (l : List α) (rs : List β), xslicesMap fn l = some rs → rs.length = l.length
  | [], rs, h => by
    simp only [xslicesMap, Option.some.injEq] at h
    subst h; rfl
  | t :: slc, rs, h => by
    simp only [xslicesMap] at h
    cases hf : fn t with
    | none => simp [hf] at h
    | some r =>
      cases hm : xslicesMap fn slc with
      | none => simp [hf, hm] at h
      | some rs0 =>
        simp only [hf, hm, Option.some.injEq] at h
        subst h
        simp [xslicesMap_length fn slc rs0 hm]

theorem xslicesMap_getElem {α β : Type} (fn : α → Option β) :
    ∀ (l : List α) (rs : List β), xslicesMap fn l = some rs →
      ∀ i : Nat, rs[i]? = (l[i]?).bind fn
  | [], rs, h, i => by
    simp only [xslicesMap, Option.some.injEq] at h
    subst h; simp
  | t :: slc, rs, h, i => by
    simp only [xslicesMap] at h
    cases hf : fn t with
    | none => simp [hf] at h
    | some r =>
      cases hm : xslicesMap fn slc with
      | none => simp [hf, hm] at h
      | some rs0 =>
        simp only [hf, hm, Option.some.injEq] at h
        subst h
        cases i with
        | zero => simp [hf]
        | succ j => simpa using xslicesMap_getElem fn slc rs0 hm j

theorem xslicesMap_isSome_iff {α β : Type} (fn : α → Option β) :
    ∀ l : List α, (∃ rs, xslicesMap fn l = some rs) ↔ ∀ a ∈ l, ∃ b, fn a = some b
  | [] => by simp [xslicesMap]
  | t :: slc => by
    have ih := xslicesMap_isSome_iff fn slc
    cases hf : fn t with
    | none => simp [xslicesMap, hf]
    | some r =>
      cases hm : xslicesMap fn slc with
      | none =>
        have : ¬ ∀ a ∈ slc, ∃ b, fn a = some b := by
          intro hall
          obtain ⟨rs, hrs⟩ := ih.mpr hall
          rw [hm] at hrs
          cases hrs
        simp [xslicesMap, hf, hm, this]
      | some rs0 =>
        have : ∀ a ∈ slc, ∃ b, fn a = some b := ih.mp ⟨rs0, hm⟩
        simpa [xslicesMap, hf, hm] using this

theorem firstIP_isSome_iff (n : NodeInfo) : (∃ s, firstIP n = some s) ↔ n.IPs ≠ [] := by
  unfold firstIP
  cases n.IPs <;> simp

/-- The address list is built, and has a first element, exactly for a valid
node list. -/
theorem validNodes_iff (ns : List NodeInfo) :
    validNodes ns ↔ ∃ cp rest, xslicesMap firstIP ns = some (cp :: rest) := by
  constructor
  · rintro ⟨hne, hip⟩
    have hall : ∀ n ∈ ns, ∃ s, firstIP n = some s :=
      fun n hn => (firstIP_isSome_iff n).mpr (hip n hn)
    obtain ⟨rs, hrs⟩ := (xslicesMap_isSome_iff firstIP ns).mpr hall
    have hlen := xslicesMap_length firstIP ns rs hrs
    cases rs with
    | nil =>
      exfalso
      apply hne
      exact List.length_eq_zero.mp (by simpa using hlen.symm)
    | cons cp rest => exact ⟨cp, rest, hrs⟩
  · rintro ⟨cp, rest, h⟩
    have hlen := xslicesMap_length firstIP ns _ h
    refine ⟨?_, ?_⟩
    · intro hnil
      subst hnil
      simp at hlen
    · intro n hn
      exact (firstIP_isSome_iff n).mp ((xslicesMap_isSome_iff firstIP ns).mp ⟨_, h⟩ n hn)

/-! ## Lemmas on the bundling steps -/

theorem writes_bundleSteps (env : Env) (opts : List BundleOption) :
    writes (bundleSteps env opts) =
      errLine "error creating crashdump collector options: " (env.GetForOptions ⟨opts⟩).2
        ++ errLine "error creating crashdump: "
            (env.CreateSupportBundle ⟨opts⟩ (env.GetForOptions ⟨opts⟩).1) := by
  simp only [bundleSteps, writes_append, writes_logErr]
  simp [writes]

theorem closes_bundleSteps (env : Env) (opts : List BundleOption) :
    closes (bundleSteps env opts) = [] := by
  simp only [bundleSteps, closes_append, closes_logErr]
  simp [closes]

theorem built_bundleSteps (env : Env) (opts : List BundleOption) :
    built (bundleSteps env opts) = [] := by
  simp only [bundleSteps, built_append, built_logErr]
  simp [built]

theorem finalized_bundleSteps (env : Env) (opts : List BundleOption) :
    finalized (bundleSteps env opts) = [opts] := by
  simp only [bundleSteps, finalized_append, finalized_logErr]
  simp [finalized]

theorem resolved_bundleSteps (env : Env) (opts : List BundleOption) :
    resolved (bundleSteps env opts) = [⟨opts⟩] := by
  simp only [bundleSteps, resolved_append, resolved_logErr]
  simp [resolved]

theorem bundled_bundleSteps (env : Env) (opts : List BundleOption) :
    bundled (bundleSteps env opts) = [(⟨opts⟩, (env.GetForOptions ⟨opts⟩).1)] := by
  simp only [bundleSteps, bundled_append, bundled_logErr]
  simp [bundled]

theorem endpoints_bundleSteps (env : Env) (opts : List BundleOption) :
    endpoints (bundleSteps env opts) = [] := by
  simp only [bundleSteps, endpoints_append, endpoints_logErr]
  simp [endpoints]

theorem calls_bundleSteps (env : Env) (opts : List BundleOption) :
    calls (bundleSteps env opts) =
      [.NewOptions opts, .GetForOptions ⟨opts⟩,
        .CreateSupportBundle ⟨opts⟩ (env.GetForOptions ⟨opts⟩).1] := by
  simp only [bundleSteps, calls_append, calls_logErr]
  simp [calls, Event.isLaterStep]

/-! ## The shape of a run -/

/-- The run in which the factory returns. -/
theorem Crashdump_returned (env : Env) (cluster : Cluster) (statePath : String)
    (supportFile : File) (cp : String) (rest : List String)
    (kubeclient : Option Clientset) (err : Option GoError)
    (hs : cluster.StatePath = .ok statePath)
    (hc : env.Create (env.Join statePath "support.zip") = .ok supportFile)
    (hn : xslicesMap firstIP cluster.Info.Nodes = some (cp :: rest))
    (hk : (getKubernetesClient env env.New.1 cp).ret = some (kubeclient, err)) :
    Crashdump env cluster =
      ⟨[.StatePath, .Create (env.Join statePath "support.zip"), .New]
        ++ logErr "error creating crashdump: " env.New.2 ++ [.Info]
        ++ (baseOpts supportFile env.New.1 (cp :: rest)).map .WithOpt
        ++ (getKubernetesClient env env.New.1 cp).trace
        ++ (kubeOpts kubeclient err).map .WithOpt
        ++ bundleSteps env (baseOpts supportFile env.New.1 (cp :: rest)
            ++ kubeOpts kubeclient err)
        ++ [.Close supportFile], .returned⟩ := by
  simp [Crashdump, crashdumpBody, hs, hc, hn, hk]

/-- The run in which `client.New` returned nil: it ends in the kubeconfig call. -/
theorem Crashdump_nilClient (env : Env) (cluster : Cluster) (statePath : String)
    (supportFile : File) (cp : String) (rest : List String)
    (hs : cluster.StatePath = .ok statePath)
    (hc : env.Create (env.Join statePath "support.zip") = .ok supportFile)
    (hn : xslicesMap firstIP cluster.Info.Nodes = some (cp :: rest))
    (hnil : env.New.1 = none) :
    Crashdump env cluster =
      ⟨[.StatePath, .Create (env.Join statePath "support.zip"), .New]
        ++ logErr "error creating crashdump: " env.New.2 ++ [.Info]
        ++ (baseOpts supportFile none (cp :: rest)).map .WithOpt
        ++ [.Kubeconfig none cp]
        ++ [.Close supportFile], .nilDereference⟩ := by
  simp [Crashdump, crashdumpBody, hs, hc, hn, hnil, getKubernetesClient_nil]

/-- The run on a node list that is not valid: it ends in an index expression. -/
theorem Crashdump_invalid (env : Env) (cluster : Cluster) (statePath : String)
    (supportFile : File)
    (hs : cluster.StatePath = .ok statePath)
    (hc : env.Create (env.Join statePath "support.zip") = .ok supportFile)
    (hv : ¬ validNodes cluster.Info.Nodes) :
    Crashdump env cluster =
      ⟨[.StatePath, .Create (env.Join statePath "support.zip"), .New]
        ++ logErr "error creating crashdump: " env.New.2
        ++ [.Info, .Close supportFile], .indexOutOfRange⟩ := by
  cases hm : xslicesMap firstIP cluster.Info.Nodes with
  | none => simp [Crashdump, crashdumpBody, hs, hc, hm]
  | some nodes =>
    cases nodes with
    | nil => simp [Crashdump, crashdumpBody, hs, hc, hm]
    | cons cp rest => exact absurd ((validNodes_iff _).mpr ⟨cp, rest, hm⟩) hv

theorem run_of_statePath_error (env : Env) (cluster : Cluster) (e : GoError)
    (h : cluster.StatePath = .error e) :
    Crashdump env cluster =
      ⟨[.StatePath, .Fprintf ("error getting state path: " ++ e.text ++ "\n")],
        .returned⟩ := by
  simp [Crashdump, h]

theorem run_of_create_error (env : Env) (cluster : Cluster) (statePath : String)
    (e : GoError)
    (hs : cluster.StatePath = .ok statePath)
    (hc : env.Create (env.Join statePath "support.zip") = .error e) :
    Crashdump env cluster =
      ⟨[.StatePath, .Create (env.Join statePath "support.zip"),
          .Fprintf ("error creating crashdump file: " ++ e.text ++ "\n")], .returned⟩ := by
  simp [Crashdump, hs, hc]

/-! ## Fatal failures -/

/-- C1: when `cluster.StatePath()` returns an error `e`, the run is the
state-path call followed by one write, the line `error getting state path: `
with the text of `e` and a newline; that is the only line written, no file is
created, no later step is performed, and the function returns. -/
theorem Crashdump_statePath_error (env : Env) (cluster : Cluster) (e : GoError)
    (h : cluster.StatePath = .error e) :
    (Crashdump env cluster).trace =
        [.StatePath, .Fprintf ("error getting state path: " ++ e.text ++ "\n")]
    ∧ writes (Crashdump env cluster).trace = ["error getting state path: " ++ e.text ++ "\n"]
    ∧ (∀ path, Event.Create path ∉ (Crashdump env cluster).trace)
    ∧ (∀ ev ∈ (Crashdump env cluster).trace, ev.isLaterStep = false)
    ∧ (Crashdump env cluster).outcome = .returned := by
  rw [run_of_statePath_error env cluster e h]
  refine ⟨rfl, rfl, ?_, ?_, rfl⟩
  · intro path
    simp
  · intro ev hev
    simp only [List.mem_cons, List.mem_singleton, List.not_mem_nil, or_false] at hev
    rcases hev with rfl | rfl <;> rfl

theorem Crashdump_statePath_error_witness :
    noStateCluster.StatePath = .error ⟨"no state"⟩
    ∧ (Crashdump sampleEnv noStateCluster).trace =
        [.StatePath, .Fprintf "error getting state path: no state\n"] :=
  ⟨rfl, (Crashdump_statePath_error sampleEnv noStateCluster ⟨"no state"⟩ rfl).1⟩

/-- C2: when `StatePath()` succeeds with `statePath` and creating the file at
`filepath.Join(statePath, "support.zip")` fails with `e`, the run is the
state-path call, the creation attempt and one write, the line
`error creating crashdump file: ` with the text of `e` and a newline; no later
step (API client, node list, Kubernetes client factory, collector resolution,
bundle creation) is performed. -/
theorem Crashdump_create_error (env : Env) (cluster : Cluster) (statePath : String)
    (e : GoError)
    (hs : cluster.StatePath = .ok statePath)
    (hc : env.Create (env.Join statePath "support.zip") = .error e) :
    (Crashdump env cluster).trace =
        [.StatePath, .Create (env.Join statePath "support.zip"),
          .Fprintf ("error creating crashdump file: " ++ e.text ++ "\n")]
    ∧ writes (Crashdump env cluster).trace =
        ["error creating crashdump file: " ++ e.text ++ "\n"]
    ∧ (∀ ev ∈ (Crashdump env cluster).trace, ev.isLaterStep = false)
    ∧ (Crashdump env cluster).outcome = .returned := by
  rw [run_of_create_error env cluster statePath e hs hc]
  refine ⟨rfl, rfl, ?_, rfl⟩
  intro ev hev
  simp only [List.mem_cons, List.mem_singleton, List.not_mem_nil, or_false] at hev
  rcases hev with rfl | rfl | rfl <;> rfl

theorem Crashdump_create_error_witness :
    sampleCluster.StatePath = .ok "/state"
    ∧ envNoCreate.Create (envNoCreate.Join "/state" "support.zip")
        = .error ⟨"permission denied"⟩
    ∧ writes (Crashdump envNoCreate sampleCluster).trace =
        ["error creating crashdump file: permission denied\n"] :=
  ⟨rfl, rfl,
    (Crashdump_create_error envNoCreate sampleCluster "/state" ⟨"permission denied"⟩
      rfl rfl).2.1⟩

/-! ## The Kubernetes client factory -/

/-- C7: whichever of the five steps of `getKubernetesClient` is the first to
fail (fetch the kubeconfig for the endpoint, parse its bytes, derive the REST
configuration, construct the clientset, get the namespace `kube-system`), the
function returns a nil client and exactly the error of that step, and its
calls are the steps up to and including the failing one, none after it.  This
holds for every input, a nil client included: there no step returns at all. -/
theorem getKubernetesClient_first_error (env : Env) (c : Option Client)
    (endpoint : String) :
    (∀ e, callKubeconfig env c endpoint = some (.error e) →
      getKubernetesClient env c endpoint =
        ⟨[.Kubeconfig c endpoint], some (none, some e)⟩)
    ∧ (∀ kubeconfig e, callKubeconfig env c endpoint = some (.ok kubeconfig) →
      env.NewClientConfigFromBytes kubeconfig = .error e →
      getKubernetesClient env c endpoint =
        ⟨[.Kubeconfig c endpoint, .NewClientConfigFromBytes kubeconfig],
          some (none, some e)⟩)
    ∧ (∀ kubeconfig config e, callKubeconfig env c endpoint = some (.ok kubeconfig) →
      env.NewClientConfigFromBytes kubeconfig = .ok config →
      env.ClientConfig config = .error e →
      getKubernetesClient env c endpoint =
        ⟨[.Kubeconfig c endpoint, .NewClientConfigFromBytes kubeconfig,
          .ClientConfig config], some (none, some e)⟩)
    ∧ (∀ kubeconfig config restconfig e,
      callKubeconfig env c endpoint = some (.ok kubeconfig) →
      env.NewClientConfigFromBytes kubeconfig = .ok config →
      env.ClientConfig config = .ok restconfig →
      env.NewForConfig restconfig = .error e →
      getKubernetesClient env c endpoint =
        ⟨[.Kubeconfig c endpoint, .NewClientConfigFromBytes kubeconfig,
          .ClientConfig config, .NewForConfig restconfig], some (none, some e)⟩)
    ∧ (∀ kubeconfig config restconfig clientset e,
      callKubeconfig env c endpoint = some (.ok kubeconfig) →
      env.NewClientConfigFromBytes kubeconfig = .ok config →
      env.ClientConfig config = .ok restconfig →
      env.NewForConfig restconfig = .ok clientset →
      env.NamespacesGet clientset "kube-system" = some e →
      getKubernetesClient env c endpoint =
        ⟨[.Kubeconfig c endpoint, .NewClientConfigFromBytes kubeconfig,
          .ClientConfig config, .NewForConfig restconfig,
          .NamespacesGet clientset "kube-system"], some (none, some e)⟩) := by
  refine ⟨?_, ?_, ?_, ?_, ?_⟩
  · intro e h1
    simp [getKubernetesClient, h1]
  · intro kubeconfig e h1 h2
    simp [getKubernetesClient, h1, h2]
  · intro kubeconfig config e h1 h2 h3
    simp [getKubernetesClient, h1, h2, h3]
  · intro kubeconfig config restconfig e h1 h2 h3 h4
    simp [getKubernetesClient, h1, h2, h3, h4]
  · intro kubeconfig config restconfig clientset e h1 h2 h3 h4 h5
    simp [getKubernetesClient, h1, h2, h3, h4, h5]

theorem getKubernetesClient_first_error_witness :
    (callKubeconfig envNoKubeconfig (some ⟨1⟩) "10.5.0.2"
        = some (.error ⟨"rpc unavailable"⟩)
      ∧ getKubernetesClient envNoKubeconfig (some ⟨1⟩) "10.5.0.2" =
          ⟨[.Kubeconfig (some ⟨1⟩) "10.5.0.2"], some (none, some ⟨"rpc unavailable"⟩)⟩)
    ∧ (envKubeDown.NamespacesGet ⟨4⟩ "kube-system" = some ⟨"connection refused"⟩
      ∧ getKubernetesClient envKubeDown (some ⟨1⟩) "10.5.0.2" =
          ⟨[.Kubeconfig (some ⟨1⟩) "10.5.0.2", .NewClientConfigFromBytes [107, 56, 115],
            .ClientConfig ⟨2⟩, .NewForConfig ⟨3⟩, .NamespacesGet ⟨4⟩ "kube-system"],
            some (none, some ⟨"connection refused"⟩)⟩) :=
  ⟨⟨rfl, (getKubernetesClient_first_error envNoKubeconfig (some ⟨1⟩) "10.5.0.2").1
      ⟨"rpc unavailable"⟩ rfl⟩,
    ⟨rfl, (getKubernetesClient_first_error envKubeDown (some ⟨1⟩) "10.5.0.2").2.2.2.2
      [107, 56, 115] ⟨2⟩ ⟨3⟩ ⟨4⟩ ⟨"connection refused"⟩ rfl rfl rfl rfl rfl⟩⟩

/-! ## The archive file is closed once -/

/-- C6: in every run in which the archive file is created, whatever the later
steps return and whether the run returns, fails at an index expression or fails
on a nil client, the file is closed exactly once and the close is the last
effect of the run; in a run in which `StatePath()` or the creation fails
nothing is closed. -/
theorem Crashdump_close_once (env : Env) (cluster : Cluster) :
    (∀ statePath supportFile, cluster.StatePath = .ok statePath →
      env.Create (env.Join statePath "support.zip") = .ok supportFile →
      closes (Crashdump env cluster).trace = [supportFile]
      ∧ (Crashdump env cluster).trace.getLast? = some (.Close supportFile))
    ∧ (∀ e, cluster.StatePath = .error e → closes (Crashdump env cluster).trace = [])
    ∧ (∀ statePath e, cluster.StatePath = .ok statePath →
      env.Create (env.Join statePath "support.zip") = .error e →
      closes (Crashdump env cluster).trace = []) := by
  refine ⟨?_, ?_, ?_⟩
  · intro statePath supportFile hs hc
    by_cases hv : validNodes cluster.Info.Nodes
    · obtain ⟨cp, rest, hn⟩ := (validNodes_iff _).mp hv
      cases hcl : env.New.1 with
      | none =>
        rw [Crashdump_nilClient env cluster statePath supportFile cp rest hs hc hn hcl]
        constructor
        · simp only [closes_append, closes_logErr, closes_withOpt]
          simp [closes]
        · exact getLast?_append_singleton _ _
      | some cl =>
        obtain ⟨kubeclient, err, hk⟩ := getKubernetesClient_returns env cl cp
        rw [← hcl] at hk
        rw [Crashdump_returned env cluster statePath supportFile cp rest kubeclient err
          hs hc hn hk]
        constructor
        · simp only [closes_append, closes_logErr, closes_withOpt,
            getKubernetesClient_closes, closes_bundleSteps]
          simp [closes]
        · exact getLast?_append_singleton _ _
    · rw [Crashdump_invalid env cluster statePath supportFile hs hc hv]
      constructor
      · simp only [closes_append, closes_logErr]
        simp [closes]
      · have : ([Event.StatePath, Event.Create (env.Join statePath "support.zip"),
            Event.New] ++ logErr "error creating crashdump: " env.New.2
            ++ [Event.Info, Event.Close supportFile])
            = ([Event.StatePath, Event.Create (env.Join statePath "support.zip"),
            Event.New] ++ logErr "error creating crashdump: " env.New.2
            ++ [Event.Info]) ++ [Event.Close supportFile] := by simp
        simp only [this]
        exact getLast?_append_singleton _ _
  · intro e hs
    rw [run_of_statePath_error env cluster e hs]
    rfl
  · intro statePath e hs hc
    rw [run_of_create_error env cluster statePath e hs hc]
    rfl

theorem Crashdump_close_once_witness :
    (closes (Crashdump envNoBundle sampleCluster).trace = [⟨"/state/support.zip"⟩]
      ∧ (Crashdump envNoBundle sampleCluster).trace.getLast?
          = some (.Close ⟨"/state/support.zip"⟩))
    ∧ (closes (Crashdump envNoClient emptyCluster).trace = [⟨"/state/support.zip"⟩]
      ∧ (Crashdump envNoClient emptyCluster).trace.getLast?
          = some (.Close ⟨"/state/support.zip"⟩))
    ∧ (closes (Crashdump envNoClient sampleCluster).trace = [⟨"/state/support.zip"⟩]
      ∧ (Crashdump envNoClient sampleCluster).trace.getLast?
          = some (.Close ⟨"/state/support.zip"⟩))
    ∧ closes (Crashdump sampleEnv noStateCluster).trace = []
    ∧ closes (Crashdump envNoCreate sampleCluster).trace = [] :=
  ⟨(Crashdump_close_once envNoBundle sampleCluster).1 "/state" ⟨"/state/support.zip"⟩
      rfl rfl,
    (Crashdump_close_once envNoClient emptyCluster).1 "/state" ⟨"/state/support.zip"⟩
      rfl rfl,
    (Crashdump_close_once envNoClient sampleCluster).1 "/state" ⟨"/state/support.zip"⟩
      rfl rfl,
    (Crashdump_close_once sampleEnv noStateCluster).2.1 ⟨"no state"⟩ rfl,
    (Crashdump_close_once envNoCreate sampleCluster).2.2 "/state" ⟨"permission denied"⟩
      rfl rfl⟩

/-! ## The node-address list and the option list -/

/-- C3: for a cluster with at least one node in which every node has an IP
(and a run that gets past the creation of the archive file), exactly one
`WithNodes` option is built, with a list `nodes` that has the length of
`cluster.Info().Nodes` and whose element at every index is the string form of
the first IP of the node at that index; every option list that is finalized
carries this list and no other, and one is finalized whenever `client.New`
returned a client; the endpoint handed to the Kubernetes client factory is
element 0 of `nodes`. -/
theorem Crashdump_node_addresses (env : Env) (cluster : Cluster) (statePath : String)
    (supportFile : File)
    (hs : cluster.StatePath = .ok statePath)
    (hc : env.Create (env.Join statePath "support.zip") = .ok supportFile)
    (hv : validNodes cluster.Info.Nodes) :
    ∃ nodes,
      nodesOf (built (Crashdump env cluster).trace) = [nodes]
      ∧ (∀ opts ∈ finalized (Crashdump env cluster).trace, nodesOf opts = [nodes])
      ∧ (∀ cl, env.New.1 = some cl →
          ∃ opts, finalized (Crashdump env cluster).trace = [opts])
      ∧ nodes.length = cluster.Info.Nodes.length
      ∧ (∀ i (h : i < cluster.Info.Nodes.length), ∃ ip,
          (cluster.Info.Nodes.get ⟨i, h⟩).IPs.head? = some ip
          ∧ nodes[i]? = some (IPString ip))
      ∧ ∃ cp, nodes[0]? = some cp ∧ endpoints (Crashdump env cluster).trace = [cp] := by
  obtain ⟨cp, rest, hn⟩ := (validNodes_iff _).mp hv
  have hrun : nodesOf (built (Crashdump env cluster).trace) = [cp :: rest]
      ∧ (∀ opts ∈ finalized (Crashdump env cluster).trace, nodesOf opts = [cp :: rest])
      ∧ (∀ cl, env.New.1 = some cl →
          ∃ opts, finalized (Crashdump env cluster).trace = [opts])
      ∧ endpoints (Crashdump env cluster).trace = [cp] := by
    cases hcl : env.New.1 with
    | none =>
      rw [Crashdump_nilClient env cluster statePath supportFile cp rest hs hc hn hcl]
      refine ⟨?_, ?_, ?_, ?_⟩
      · simp only [built_append, built_logErr, built_withOpt]
        simp [built, nodesOf, baseOpts]
      · intro opts hopts
        simp only [finalized_append, finalized_logErr, finalized_withOpt] at hopts
        simp [finalized] at hopts
      · intro cl hcl2
        cases hcl2
      · simp only [endpoints_append, endpoints_logErr, endpoints_withOpt]
        simp [endpoints]
    | some cl =>
      obtain ⟨kubeclient, err, hk⟩ := getKubernetesClient_returns env cl cp
      have hfin : finalized (Crashdump env cluster).trace
          = [baseOpts supportFile (some cl) (cp :: rest) ++ kubeOpts kubeclient err] := by
        rw [← hcl] at hk ⊢
        rw [Crashdump_returned env cluster statePath supportFile cp rest kubeclient err
          hs hc hn hk]
        simp only [finalized_append, finalized_logErr, finalized_withOpt,
          getKubernetesClient_finalized, finalized_bundleSteps]
        simp [finalized]
      refine ⟨?_, ?_, ?_, ?_⟩
      · rw [← hcl] at hk
        rw [Crashdump_returned env cluster statePath supportFile cp rest kubeclient err
          hs hc hn hk]
        simp only [built_append, built_logErr, built_withOpt, getKubernetesClient_built,
          built_bundleSteps]
        have hb : built [Event.StatePath, Event.Create (env.Join statePath "support.zip"),
            Event.New] = [] := rfl
        have hi : built [Event.Info] = [] := rfl
        have hcls : built [Event.Close supportFile] = [] := rfl
        rw [hb, hi, hcls]
        simpa using nodesOf_baseOpts_append supportFile env.New.1 (cp :: rest)
          kubeclient err
      · intro opts hopts
        rw [hfin] at hopts
        rw [List.mem_singleton.mp hopts]
        exact nodesOf_baseOpts_append _ _ _ _ _
      · intro cl2 _
        exact ⟨_, hfin⟩
      · rw [← hcl] at hk
        rw [Crashdump_returned env cluster statePath supportFile cp rest kubeclient err
          hs hc hn hk]
        simp only [endpoints_append, endpoints_logErr, endpoints_withOpt,
          getKubernetesClient_endpoints, endpoints_bundleSteps]
        simp [endpoints]
  refine ⟨cp :: rest, hrun.1, hrun.2.1, hrun.2.2.1, ?_, ?_, cp, by simp, hrun.2.2.2⟩
  · exact xslicesMap_length firstIP _ _ hn
  · intro i h
    have hget := xslicesMap_getElem firstIP _ _ hn i
    rw [List.getElem?_eq_getElem h] at hget
    simp only [Option.some_bind] at hget
    have hip : (cluster.Info.Nodes.get ⟨i, h⟩).IPs ≠ [] := hv.2 _ (List.get_mem _ _ _)
    have hfirst : firstIP (cluster.Info.Nodes.get ⟨i, h⟩)
        = (cluster.Info.Nodes.get ⟨i, h⟩).IPs.head?.map IPString := by
      unfold firstIP
      cases (cluster.Info.Nodes.get ⟨i, h⟩).IPs <;> rfl
    cases hips : (cluster.Info.Nodes.get ⟨i, h⟩).IPs with
    | nil => exact absurd hips hip
    | cons ip ips =>
      refine ⟨ip, rfl, ?_⟩
      rw [hget]
      have : cluster.Info.Nodes[i] = cluster.Info.Nodes.get ⟨i, h⟩ := rfl
      rw [this, hfirst, hips]
      rfl

theorem Crashdump_node_addresses_witness :
    sampleCluster.StatePath = .ok "/state"
    ∧ envNoClient.Create (envNoClient.Join "/state" "support.zip")
        = .ok ⟨"/state/support.zip"⟩
    ∧ validNodes sampleCluster.Info.Nodes
    ∧ ∃ nodes,
      nodesOf (built (Crashdump envNoClient sampleCluster).trace) = [nodes]
      ∧ (∀ opts ∈ finalized (Crashdump envNoClient sampleCluster).trace,
          nodesOf opts = [nodes])
      ∧ (∀ cl, envNoClient.New.1 = some cl →
          ∃ opts, finalized (Crashdump envNoClient sampleCluster).trace = [opts])
      ∧ nodes.length = sampleCluster.Info.Nodes.length
      ∧ (∀ i (h : i < sampleCluster.Info.Nodes.length), ∃ ip,
          (sampleCluster.Info.Nodes.get ⟨i, h⟩).IPs.head? = some ip
          ∧ nodes[i]? = some (IPString ip))
      ∧ ∃ cp, nodes[0]? = some cp
          ∧ endpoints (Crashdump envNoClient sampleCluster).trace = [cp] :=
  ⟨rfl, rfl, by decide,
    Crashdump_node_addresses envNoClient sampleCluster "/state" ⟨"/state/support.zip"⟩
      rfl rfl (by decide)⟩

/-- C4: in a run that created the archive file and built the node-address list
`cp :: rest`, when `getKubernetesClient` returns an error the run goes on to
option finalization, collector resolution and bundle creation, in that order;
the options built, and the one option list finalized, are the four base
options in order (archive output, Talos client as returned by `client.New`,
nodes, one worker) without a Kubernetes-client option; and the factory writes
nothing to `out`: the lines written are those of API-client construction,
collector resolution and bundle creation only. -/
theorem Crashdump_factory_error (env : Env) (cluster : Cluster) (statePath : String)
    (supportFile : File) (cp : String) (rest : List String)
    (kubeclient : Option Clientset) (e : GoError)
    (hs : cluster.StatePath = .ok statePath)
    (hc : env.Create (env.Join statePath "support.zip") = .ok supportFile)
    (hn : xslicesMap firstIP cluster.Info.Nodes = some (cp :: rest))
    (hk : (getKubernetesClient env env.New.1 cp).ret = some (kubeclient, some e)) :
    (Crashdump env cluster).trace =
        [.StatePath, .Create (env.Join statePath "support.zip"), .New]
        ++ logErr "error creating crashdump: " env.New.2 ++ [.Info]
        ++ [.WithOpt (.WithArchiveOutput supportFile), .WithOpt (.WithTalosClient env.New.1),
            .WithOpt (.WithNodes (cp :: rest)), .WithOpt (.WithNumWorkers 1)]
        ++ (getKubernetesClient env env.New.1 cp).trace
        ++ [.NewOptions (baseOpts supportFile env.New.1 (cp :: rest)),
            .GetForOptions ⟨baseOpts supportFile env.New.1 (cp :: rest)⟩]
        ++ logErr "error creating crashdump collector options: "
            (env.GetForOptions ⟨baseOpts supportFile env.New.1 (cp :: rest)⟩).2
        ++ [.CreateSupportBundle ⟨baseOpts supportFile env.New.1 (cp :: rest)⟩
            (env.GetForOptions ⟨baseOpts supportFile env.New.1 (cp :: rest)⟩).1]
        ++ logErr "error creating crashdump: "
            (env.CreateSupportBundle ⟨baseOpts supportFile env.New.1 (cp :: rest)⟩
              (env.GetForOptions ⟨baseOpts supportFile env.New.1 (cp :: rest)⟩).1)
        ++ [.Close supportFile]
    ∧ finalized (Crashdump env cluster).trace =
        [[.WithArchiveOutput supportFile, .WithTalosClient env.New.1,
          .WithNodes (cp :: rest), .WithNumWorkers 1]]
    ∧ built (Crashdump env cluster).trace =
        [.WithArchiveOutput supportFile, .WithTalosClient env.New.1,
          .WithNodes (cp :: rest), .WithNumWorkers 1]
    ∧ writes (getKubernetesClient env env.New.1 cp).trace = []
    ∧ writes (Crashdump env cluster).trace =
        errLine "error creating crashdump: " env.New.2
        ++ errLine "error creating crashdump collector options: "
            (env.GetForOptions ⟨baseOpts supportFile env.New.1 (cp :: rest)⟩).2
        ++ errLine "error creating crashdump: "
            (env.CreateSupportBundle ⟨baseOpts supportFile env.New.1 (cp :: rest)⟩
              (env.GetForOptions ⟨baseOpts supportFile env.New.1 (cp :: rest)⟩).1)
    ∧ (Crashdump env cluster).outcome = .returned := by
  have hrun := Crashdump_returned env cluster statePath supportFile cp rest kubeclient
    (some e) hs hc hn hk
  have hko : kubeOpts kubeclient (some e) = [] := rfl
  rw [hko, List.map_nil, List.append_nil, List.append_nil] at hrun
  rw [hrun]
  refine ⟨?_, ?_, ?_, getKubernetesClient_writes _ _ _, ?_, rfl⟩
  · simp [bundleSteps, baseOpts]
  · simp only [finalized_append, finalized_logErr, finalized_withOpt,
      getKubernetesClient_finalized, finalized_bundleSteps]
    simp [finalized, baseOpts]
  · simp only [built_append, built_logErr, built_withOpt, getKubernetesClient_built,
      built_bundleSteps]
    simp [built, baseOpts]
  · simp only [writes_append, writes_logErr, writes_withOpt, getKubernetesClient_writes,
      writes_bundleSteps]
    simp [writes]

theorem Crashdump_factory_error_witness :
    sampleCluster.StatePath = .ok "/state"
    ∧ envKubeDown.Create (envKubeDown.Join "/state" "support.zip")
        = .ok ⟨"/state/support.zip"⟩
    ∧ xslicesMap firstIP sampleCluster.Info.Nodes
        = some ("10.5.0.2" :: ["10.5.0.3", "10.5.0.4"])
    ∧ (getKubernetesClient envKubeDown envKubeDown.New.1 "10.5.0.2").ret
        = some (none, some ⟨"connection refused"⟩)
    ∧ finalized (Crashdump envKubeDown sampleCluster).trace =
        [[.WithArchiveOutput ⟨"/state/support.zip"⟩, .WithTalosClient envKubeDown.New.1,
          .WithNodes ("10.5.0.2" :: ["10.5.0.3", "10.5.0.4"]), .WithNumWorkers 1]] :=
  ⟨rfl, rfl, rfl, rfl,
    (Crashdump_factory_error envKubeDown sampleCluster "/state" ⟨"/state/support.zip"⟩
      "10.5.0.2" ["10.5.0.3", "10.5.0.4"] none ⟨"connection refused"⟩
      rfl rfl rfl rfl).2.1⟩

/-- C5: in a run that created the archive file and built the node-address list
`cp :: rest`, when `getKubernetesClient` returns `kubeclient` and a nil error,
each of its five steps returned no error (the last being the get of namespace
`kube-system`), `kubeclient` is a non-nil clientset, the one constructed by
`k8s.NewForConfig`, and the one option list finalized is the four base options
followed, as last element, by the Kubernetes-client option carrying that
client. -/
theorem Crashdump_factory_ok (env : Env) (cluster : Cluster) (statePath : String)
    (supportFile : File) (cp : String) (rest : List String)
    (kubeclient : Option Clientset)
    (hs : cluster.StatePath = .ok statePath)
    (hc : env.Create (env.Join statePath "support.zip") = .ok supportFile)
    (hn : xslicesMap firstIP cluster.Info.Nodes = some (cp :: rest))
    (hk : (getKubernetesClient env env.New.1 cp).ret = some (kubeclient, none)) :
    ∃ kubeconfig config restconfig clientset,
      callKubeconfig env env.New.1 cp = some (.ok kubeconfig)
      ∧ env.NewClientConfigFromBytes kubeconfig = .ok config
      ∧ env.ClientConfig config = .ok restconfig
      ∧ env.NewForConfig restconfig = .ok clientset
      ∧ env.NamespacesGet clientset "kube-system" = none
      ∧ kubeclient = some clientset
      ∧ finalized (Crashdump env cluster).trace =
          [[.WithArchiveOutput supportFile, .WithTalosClient env.New.1,
            .WithNodes (cp :: rest), .WithNumWorkers 1,
            .WithKubernetesClient (some clientset)]]
      ∧ (Crashdump env cluster).outcome = .returned := by
  obtain ⟨kubeconfig, config, restconfig, clientset, h1, h2, h3, h4, h5, h6⟩ :=
    getKubernetesClient_ok env env.New.1 cp kubeclient hk
  refine ⟨kubeconfig, config, restconfig, clientset, h1, h2, h3, h4, h5, h6, ?_⟩
  rw [Crashdump_returned env cluster statePath supportFile cp rest kubeclient none
    hs hc hn hk]
  refine ⟨?_, rfl⟩
  simp only [finalized_append, finalized_logErr, finalized_withOpt,
    getKubernetesClient_finalized, finalized_bundleSteps]
  simp [finalized, baseOpts, kubeOpts, h6]

theorem Crashdump_factory_ok_witness :
    sampleCluster.StatePath = .ok "/state"
    ∧ sampleEnv.Create (sampleEnv.Join "/state" "support.zip") = .ok ⟨"/state/support.zip"⟩
    ∧ xslicesMap firstIP sampleCluster.Info.Nodes
        = some ("10.5.0.2" :: ["10.5.0.3", "10.5.0.4"])
    ∧ (getKubernetesClient sampleEnv sampleEnv.New.1 "10.5.0.2").ret
        = some (some ⟨4⟩, none)
    ∧ ∃ kubeconfig config restconfig clientset,
      callKubeconfig sampleEnv sampleEnv.New.1 "10.5.0.2" = some (.ok kubeconfig)
      ∧ sampleEnv.NewClientConfigFromBytes kubeconfig = .ok config
      ∧ sampleEnv.ClientConfig config = .ok restconfig
      ∧ sampleEnv.NewForConfig restconfig = .ok clientset
      ∧ sampleEnv.NamespacesGet clientset "kube-system" = none
      ∧ some ⟨4⟩ = some clientset
      ∧ finalized (Crashdump sampleEnv sampleCluster).trace =
          [[.WithArchiveOutput ⟨"/state/support.zip"⟩, .WithTalosClient sampleEnv.New.1,
            .WithNodes ("10.5.0.2" :: ["10.5.0.3", "10.5.0.4"]), .WithNumWorkers 1,
            .WithKubernetesClient (some clientset)]]
      ∧ (Crashdump sampleEnv sampleCluster).outcome = .returned :=
  ⟨rfl, rfl, rfl, rfl,
    Crashdump_factory_ok sampleEnv sampleCluster "/state" ⟨"/state/support.zip"⟩
      "10.5.0.2" ["10.5.0.3", "10.5.0.4"] (some ⟨4⟩) rfl rfl rfl rfl⟩

/-! ## What is written to `out` -/

/-- C9: in a run that created the archive file and whose node list is valid,
the strings written to `out` are, in this order and with nothing else:
`error creating crashdump: ` with the error of `client.New` if it failed,
`error creating crashdump collector options: ` with the error of collector
resolution if it failed, `error creating crashdump: ` with the error of bundle
creation if it failed, each ended by a newline.  When `client.New` returned a
client, collector resolution and bundle creation are each called once, on the
same finalized options.  When it returned nil neither is called, so neither
failed, and the only line is the one of `client.New`.  In every run, when
`client.New` returned no error and no call of collector resolution or of
bundle creation returned one, nothing is written, whatever
`getKubernetesClient` did. -/
theorem Crashdump_writes (env : Env) (cluster : Cluster) (statePath : String)
    (supportFile : File)
    (hs : cluster.StatePath = .ok statePath)
    (hc : env.Create (env.Join statePath "support.zip") = .ok supportFile)
    (hv : validNodes cluster.Info.Nodes) :
    (∀ cl, env.New.1 = some cl →
      ∃ options,
        resolved (Crashdump env cluster).trace = [options]
        ∧ bundled (Crashdump env cluster).trace
            = [(options, (env.GetForOptions options).1)]
        ∧ writes (Crashdump env cluster).trace =
            errLine "error creating crashdump: " env.New.2
            ++ errLine "error creating crashdump collector options: "
                (env.GetForOptions options).2
            ++ errLine "error creating crashdump: "
                (env.CreateSupportBundle options (env.GetForOptions options).1))
    ∧ (env.New.1 = none →
        resolved (Crashdump env cluster).trace = []
        ∧ bundled (Crashdump env cluster).trace = []
        ∧ writes (Crashdump env cluster).trace
            = errLine "error creating crashdump: " env.New.2)
    ∧ (env.New.2 = none →
        (∀ options ∈ resolved (Crashdump env cluster).trace,
          (env.GetForOptions options).2 = none) →
        (∀ p ∈ bundled (Crashdump env cluster).trace,
          env.CreateSupportBundle p.1 p.2 = none) →
        writes (Crashdump env cluster).trace = []) := by
  obtain ⟨cp, rest, hn⟩ := (validNodes_iff _).mp hv
  have hsome : ∀ cl, env.New.1 = some cl →
      ∃ options,
        resolved (Crashdump env cluster).trace = [options]
        ∧ bundled (Crashdump env cluster).trace
            = [(options, (env.GetForOptions options).1)]
        ∧ writes (Crashdump env cluster).trace =
            errLine "error creating crashdump: " env.New.2
            ++ errLine "error creating crashdump collector options: "
                (env.GetForOptions options).2
            ++ errLine "error creating crashdump: "
                (env.CreateSupportBundle options (env.GetForOptions options).1) := by
    intro cl hcl
    obtain ⟨kubeclient, err, hk⟩ := getKubernetesClient_returns env cl cp
    rw [← hcl] at hk
    refine ⟨⟨baseOpts supportFile env.New.1 (cp :: rest) ++ kubeOpts kubeclient err⟩,
      ?_, ?_, ?_⟩
    · rw [Crashdump_returned env cluster statePath supportFile cp rest kubeclient err
        hs hc hn hk]
      simp only [resolved_append, resolved_logErr, resolved_withOpt,
        getKubernetesClient_resolved, resolved_bundleSteps]
      simp [resolved]
    · rw [Crashdump_returned env cluster statePath supportFile cp rest kubeclient err
        hs hc hn hk]
      simp only [bundled_append, bundled_logErr, bundled_withOpt,
        getKubernetesClient_bundled, bundled_bundleSteps]
      simp [bundled]
    · rw [Crashdump_returned env cluster statePath supportFile cp rest kubeclient err
        hs hc hn hk]
      simp only [writes_append, writes_logErr, writes_withOpt,
        getKubernetesClient_writes, writes_bundleSteps]
      simp [writes]
  have hnone : env.New.1 = none →
      resolved (Crashdump env cluster).trace = []
      ∧ bundled (Crashdump env cluster).trace = []
      ∧ writes (Crashdump env cluster).trace
          = errLine "error creating crashdump: " env.New.2 := by
    intro hcl
    rw [Crashdump_nilClient env cluster statePath supportFile cp rest hs hc hn hcl]
    refine ⟨?_, ?_, ?_⟩
    · simp only [resolved_append, resolved_logErr, resolved_withOpt]
      simp [resolved]
    · simp only [bundled_append, bundled_logErr, bundled_withOpt]
      simp [bundled]
    · simp only [writes_append, writes_logErr, writes_withOpt]
      simp [writes]
  refine ⟨hsome, hnone, ?_⟩
  intro h1 h2 h3
  cases hcl : env.New.1 with
  | none =>
    rw [(hnone hcl).2.2, h1]
    rfl
  | some cl =>
    obtain ⟨options, hr, hb, hw⟩ := hsome cl hcl
    have e2 : (env.GetForOptions options).2 = none := h2 options (by simp [hr])
    have e3 : env.CreateSupportBundle options (env.GetForOptions options).1 = none :=
      h3 (options, (env.GetForOptions options).1) (by simp [hb])
    rw [hw, h1, e2, e3]
    rfl

theorem Crashdump_writes_witness :
    (sampleCluster.StatePath = .ok "/state"
      ∧ envNoBundle.Create (envNoBundle.Join "/state" "support.zip")
          = .ok ⟨"/state/support.zip"⟩
      ∧ validNodes sampleCluster.Info.Nodes
      ∧ envNoBundle.New.1 = some ⟨1⟩
      ∧ ∃ options,
        resolved (Crashdump envNoBundle sampleCluster).trace = [options]
        ∧ bundled (Crashdump envNoBundle sampleCluster).trace
            = [(options, (envNoBundle.GetForOptions options).1)]
        ∧ writes (Crashdump envNoBundle sampleCluster).trace =
            errLine "error creating crashdump: " envNoBundle.New.2
            ++ errLine "error creating crashdump collector options: "
                (envNoBundle.GetForOptions options).2
            ++ errLine "error creating crashdump: "
                (envNoBundle.CreateSupportBundle options
                  (envNoBundle.GetForOptions options).1))
    ∧ (envNoClient.New.1 = none
      ∧ resolved (Crashdump envNoClient sampleCluster).trace = []
      ∧ bundled (Crashdump envNoClient sampleCluster).trace = []
      ∧ writes (Crashdump envNoClient sampleCluster).trace
          = errLine "error creating crashdump: " envNoClient.New.2) :=
  ⟨⟨rfl, rfl, by decide, rfl,
      (Crashdump_writes envNoBundle sampleCluster "/state" ⟨"/state/support.zip"⟩
        rfl rfl (by decide)).1 ⟨1⟩ rfl⟩,
    ⟨rfl,
      (Crashdump_writes envNoClient sampleCluster "/state" ⟨"/state/support.zip"⟩
        rfl rfl (by decide)).2.1 rfl⟩⟩

/-! ## The index expressions -/

/-- C10: in a run in which `StatePath()` and the creation of the archive file
succeed, the run reaches option building (lines 57-62), and does not end in an
index-out-of-range failure, exactly when `cluster.Info().Nodes` is non-empty
and every node has a non-empty `IPs` list; otherwise it ends with an
index-out-of-range failure after the file was created and the node list read,
with no option built and no call of the Kubernetes client factory, of option
finalization, of collector resolution or of bundle creation. -/
theorem Crashdump_index_out_of_range (env : Env) (cluster : Cluster)
    (statePath : String) (supportFile : File)
    (hs : cluster.StatePath = .ok statePath)
    (hc : env.Create (env.Join statePath "support.zip") = .ok supportFile) :
    ((Crashdump env cluster).outcome ≠ .indexOutOfRange ↔
      (cluster.Info.Nodes ≠ [] ∧ ∀ n ∈ cluster.Info.Nodes, n.IPs ≠ []))
    ∧ ((∃ option, Event.WithOpt option ∈ (Crashdump env cluster).trace) ↔
      (cluster.Info.Nodes ≠ [] ∧ ∀ n ∈ cluster.Info.Nodes, n.IPs ≠ []))
    ∧ (¬ (cluster.Info.Nodes ≠ [] ∧ ∀ n ∈ cluster.Info.Nodes, n.IPs ≠ []) →
      (Crashdump env cluster).outcome = .indexOutOfRange
      ∧ (Crashdump env cluster).trace =
          [.StatePath, .Create (env.Join statePath "support.zip"), .New]
          ++ logErr "error creating crashdump: " env.New.2
          ++ [.Info, .Close supportFile]
      ∧ built (Crashdump env cluster).trace = []
      ∧ ∀ ev ∈ (Crashdump env cluster).trace, ev.isBundling = false) := by
  have hbad : ¬ validNodes cluster.Info.Nodes →
      (Crashdump env cluster).outcome = .indexOutOfRange
      ∧ (Crashdump env cluster).trace =
          [.StatePath, .Create (env.Join statePath "support.zip"), .New]
          ++ logErr "error creating crashdump: " env.New.2
          ++ [.Info, .Close supportFile]
      ∧ built (Crashdump env cluster).trace = []
      ∧ ∀ ev ∈ (Crashdump env cluster).trace, ev.isBundling = false := by
    intro hv
    rw [Crashdump_invalid env cluster statePath supportFile hs hc hv]
    refine ⟨rfl, rfl, ?_, ?_⟩
    · simp only [built_append, built_logErr]
      simp [built]
    · intro ev hev
      simp only [List.mem_append, List.mem_cons, List.mem_singleton, List.not_mem_nil,
        or_false] at hev
      rcases hev with ((rfl | rfl | rfl) | hlog) | rfl | rfl
      · rfl
      · rfl
      · rfl
      · exact isBundling_logErr _ _ ev hlog
      · rfl
      · rfl
  have hgood : validNodes cluster.Info.Nodes →
      (Crashdump env cluster).outcome ≠ .indexOutOfRange
      ∧ ∃ option, Event.WithOpt option ∈ (Crashdump env cluster).trace := by
    intro hv
    obtain ⟨cp, rest, hn⟩ := (validNodes_iff _).mp hv
    cases hcl : env.New.1 with
    | none =>
      rw [Crashdump_nilClient env cluster statePath supportFile cp rest hs hc hn hcl]
      refine ⟨by simp, .WithArchiveOutput supportFile, ?_⟩
      simp [baseOpts]
    | some cl =>
      obtain ⟨kubeclient, err, hk⟩ := getKubernetesClient_returns env cl cp
      rw [← hcl] at hk
      rw [Crashdump_returned env cluster statePath supportFile cp rest kubeclient err
        hs hc hn hk]
      refine ⟨by simp, .WithArchiveOutput supportFile, ?_⟩
      simp [baseOpts]
  refine ⟨⟨?_, fun hv => (hgood hv).1⟩, ⟨?_, fun hv => (hgood hv).2⟩, hbad⟩
  · intro hret
    by_contra hv
    exact hret (hbad hv).1
  · rintro ⟨option, hmem⟩
    by_contra hv
    have hb := (hbad hv).2.2.1
    have : option ∈ built (Crashdump env cluster).trace := by
      unfold built
      exact List.mem_filterMap.mpr ⟨_, hmem, rfl⟩
    rw [hb] at this
    cases this

theorem Crashdump_index_out_of_range_witness :
    emptyCluster.StatePath = .ok "/state"
    ∧ envNoClient.Create (envNoClient.Join "/state" "support.zip")
        = .ok ⟨"/state/support.zip"⟩
    ∧ ¬ (emptyCluster.Info.Nodes ≠ [] ∧ ∀ n ∈ emptyCluster.Info.Nodes, n.IPs ≠ [])
    ∧ (Crashdump envNoClient emptyCluster).outcome = .indexOutOfRange
    ∧ (Crashdump envNoClient emptyCluster).trace =
        [.StatePath, .Create "/state/support.zip", .New,
          .Fprintf "error creating crashdump: failed to determine endpoints\n",
          .Info, .Close ⟨"/state/support.zip"⟩]
    ∧ (∀ ev ∈ (Crashdump envNoClient emptyCluster).trace, ev.isBundling = false)
    ∧ (Crashdump sampleEnv noIPCluster).outcome = .indexOutOfRange
    ∧ (Crashdump envNoClient sampleCluster).outcome ≠ .indexOutOfRange :=
  ⟨rfl, rfl, by decide,
    ((Crashdump_index_out_of_range envNoClient emptyCluster "/state"
      ⟨"/state/support.zip"⟩ rfl rfl).2.2 (by decide)).1,
    ((Crashdump_index_out_of_range envNoClient emptyCluster "/state"
      ⟨"/state/support.zip"⟩ rfl rfl).2.2 (by decide)).2.1,
    ((Crashdump_index_out_of_range envNoClient emptyCluster "/state"
      ⟨"/state/support.zip"⟩ rfl rfl).2.2 (by decide)).2.2.2,
    ((Crashdump_index_out_of_range sampleEnv noIPCluster "/state"
      ⟨"/state/support.zip"⟩ rfl rfl).2.2 (by decide)).1,
    (Crashdump_index_out_of_range envNoClient sampleCluster "/state"
      ⟨"/state/support.zip"⟩ rfl rfl).1.mpr (by decide)⟩

/-! ## Degrading failures -/

/-- C8 fails as stated, in three ways.  With the namespace probe failing and
all other steps succeeding, the Kubernetes client factory fails, is reached by
the run, and nothing at all is written to `out`.  With `client.New` failing on
a cluster without nodes, the archive file is created and the failure logged,
and no step of the factory, of collector resolution or of bundle creation is
executed.  With `client.New` returning nil and an error on a three-node cluster,
the failure is logged and the run ends on the nil client in the kubeconfig
call, before option finalization, collector resolution and bundle creation. -/
theorem Crashdump_degrading_counterexample :
    ((getKubernetesClient envKubeDown envKubeDown.New.1 "10.5.0.2").ret
        = some (none, some ⟨"connection refused"⟩)
      ∧ endpoints (Crashdump envKubeDown sampleCluster).trace = ["10.5.0.2"]
      ∧ writes (Crashdump envKubeDown sampleCluster).trace = [])
    ∧ (envNoClient.New.2 = some ⟨"failed to determine endpoints"⟩
      ∧ Event.Create "/state/support.zip" ∈ (Crashdump envNoClient emptyCluster).trace
      ∧ writes (Crashdump envNoClient emptyCluster).trace
          = ["error creating crashdump: failed to determine endpoints\n"]
      ∧ ∀ ev ∈ (Crashdump envNoClient emptyCluster).trace, ev.isBundling = false)
    ∧ (envNoClient.New = (none, some ⟨"failed to determine endpoints"⟩)
      ∧ Event.Create "/state/support.zip" ∈ (Crashdump envNoClient sampleCluster).trace
      ∧ writes (Crashdump envNoClient sampleCluster).trace
          = ["error creating crashdump: failed to determine endpoints\n"]
      ∧ (Crashdump envNoClient sampleCluster).outcome = .nilDereference
      ∧ finalized (Crashdump envNoClient sampleCluster).trace = []
      ∧ resolved (Crashdump envNoClient sampleCluster).trace = []
      ∧ bundled (Crashdump envNoClient sampleCluster).trace = []) := by
  decide

/-- C8 as amended: in a run that created the archive file and built the
node-address list `cp :: rest`, a failure of `client.New` writes its line to
`out` and the factory writes nothing; and when `client.New` returned a client,
the calls made after the file creation are always the API-client construction,
the node-list read, the building of the base options, the steps of the
Kubernetes client factory, the building of the Kubernetes-client option if the
factory succeeded, option finalization, collector resolution and bundle
creation, in this order, whichever of them fail, and the run returns; a
failure of collector resolution writes its line to `out`, and a run in which
only the factory fails writes nothing.  Nothing is said of what follows
`client.New` returning nil. -/
theorem Crashdump_degrading (env : Env) (cluster : Cluster) (statePath : String)
    (supportFile : File) (cp : String) (rest : List String)
    (hs : cluster.StatePath = .ok statePath)
    (hc : env.Create (env.Join statePath "support.zip") = .ok supportFile)
    (hn : xslicesMap firstIP cluster.Info.Nodes = some (cp :: rest)) :
    (∀ e, env.New.2 = some e →
      ("error creating crashdump: " ++ e.text ++ "\n")
        ∈ writes (Crashdump env cluster).trace)
    ∧ writes (getKubernetesClient env env.New.1 cp).trace = []
    ∧ (∀ cl, env.New.1 = some cl →
      ∃ more,
        calls (Crashdump env cluster).trace =
            [.New, .Info]
            ++ (baseOpts supportFile env.New.1 (cp :: rest)).map .WithOpt
            ++ (getKubernetesClient env env.New.1 cp).trace
            ++ more.map .WithOpt
            ++ [.NewOptions (baseOpts supportFile env.New.1 (cp :: rest) ++ more),
                .GetForOptions ⟨baseOpts supportFile env.New.1 (cp :: rest) ++ more⟩,
                .CreateSupportBundle
                  ⟨baseOpts supportFile env.New.1 (cp :: rest) ++ more⟩
                  (env.GetForOptions
                    ⟨baseOpts supportFile env.New.1 (cp :: rest) ++ more⟩).1]
        ∧ (Crashdump env cluster).outcome = .returned
        ∧ (∀ e, (env.GetForOptions
              ⟨baseOpts supportFile env.New.1 (cp :: rest) ++ more⟩).2 = some e →
            ("error creating crashdump collector options: " ++ e.text ++ "\n")
              ∈ writes (Crashdump env cluster).trace)
        ∧ (∀ kubeclient e,
            (getKubernetesClient env env.New.1 cp).ret = some (kubeclient, some e) →
            env.New.2 = none →
            (env.GetForOptions
              ⟨baseOpts supportFile env.New.1 (cp :: rest) ++ more⟩).2 = none →
            env.CreateSupportBundle
              ⟨baseOpts supportFile env.New.1 (cp :: rest) ++ more⟩
              (env.GetForOptions
                ⟨baseOpts supportFile env.New.1 (cp :: rest) ++ more⟩).1 = none →
            writes (Crashdump env cluster).trace = [])) := by
  refine ⟨?_, getKubernetesClient_writes _ _ _, ?_⟩
  · intro e he
    cases hcl : env.New.1 with
    | none =>
      rw [Crashdump_nilClient env cluster statePath supportFile cp rest hs hc hn hcl]
      simp only [writes_append, writes_logErr, writes_withOpt, he]
      simp [errLine]
    | some cl =>
      obtain ⟨kubeclient, err, hk⟩ := getKubernetesClient_returns env cl cp
      rw [← hcl] at hk
      rw [Crashdump_returned env cluster statePath supportFile cp rest kubeclient err
        hs hc hn hk]
      simp only [writes_append, writes_logErr, writes_withOpt,
        getKubernetesClient_writes, writes_bundleSteps, he]
      simp [errLine]
  · intro cl hcl
    obtain ⟨kubeclient, err, hk⟩ := getKubernetesClient_returns env cl cp
    rw [← hcl] at hk
    have hw : writes (Crashdump env cluster).trace =
        errLine "error creating crashdump: " env.New.2
        ++ errLine "error creating crashdump collector options: "
            (env.GetForOptions
              ⟨baseOpts supportFile env.New.1 (cp :: rest) ++ kubeOpts kubeclient err⟩).2
        ++ errLine "error creating crashdump: "
            (env.CreateSupportBundle
              ⟨baseOpts supportFile env.New.1 (cp :: rest) ++ kubeOpts kubeclient err⟩
              (env.GetForOptions
                ⟨baseOpts supportFile env.New.1 (cp :: rest)
                  ++ kubeOpts kubeclient err⟩).1) := by
      rw [Crashdump_returned env cluster statePath supportFile cp rest kubeclient err
        hs hc hn hk]
      simp only [writes_append, writes_logErr, writes_withOpt,
        getKubernetesClient_writes, writes_bundleSteps]
      simp [writes]
    refine ⟨kubeOpts kubeclient err, ?_, ?_, ?_, ?_⟩
    · rw [Crashdump_returned env cluster statePath supportFile cp rest kubeclient err
        hs hc hn hk]
      simp only [calls_append, calls_logErr, calls_withOpt, getKubernetesClient_calls,
        calls_bundleSteps]
      simp [calls, Event.isLaterStep]
    · rw [Crashdump_returned env cluster statePath supportFile cp rest kubeclient err
        hs hc hn hk]
    · intro e he
      rw [hw, he]
      simp [errLine]
    · intro _ _ _ h1 h2 h3
      rw [hw, h1, h2, h3]
      rfl

theorem Crashdump_degrading_witness :
    (sampleCluster.StatePath = .ok "/state"
      ∧ envNoClient.Create (envNoClient.Join "/state" "support.zip")
          = .ok ⟨"/state/support.zip"⟩
      ∧ xslicesMap firstIP sampleCluster.Info.Nodes
          = some ("10.5.0.2" :: ["10.5.0.3", "10.5.0.4"])
      ∧ envNoClient.New.2 = some ⟨"failed to determine endpoints"⟩
      ∧ "error creating crashdump: failed to determine endpoints\n"
          ∈ writes (Crashdump envNoClient sampleCluster).trace)
    ∧ (envDegraded.Create (envDegraded.Join "/state" "support.zip")
          = .ok ⟨"/state/support.zip"⟩
      ∧ envDegraded.New.1 = some ⟨1⟩
      ∧ ∃ more,
        calls (Crashdump envDegraded sampleCluster).trace =
            [.New, .Info]
            ++ (baseOpts ⟨"/state/support.zip"⟩ envDegraded.New.1
                ("10.5.0.2" :: ["10.5.0.3", "10.5.0.4"])).map .WithOpt
            ++ (getKubernetesClient envDegraded envDegraded.New.1 "10.5.0.2").trace
            ++ more.map .WithOpt
            ++ [.NewOptions (baseOpts ⟨"/state/support.zip"⟩ envDegraded.New.1
                  ("10.5.0.2" :: ["10.5.0.3", "10.5.0.4"]) ++ more),
                .GetForOptions ⟨baseOpts ⟨"/state/support.zip"⟩ envDegraded.New.1
                  ("10.5.0.2" :: ["10.5.0.3", "10.5.0.4"]) ++ more⟩,
                .CreateSupportBundle
                  ⟨baseOpts ⟨"/state/support.zip"⟩ envDegraded.New.1
                    ("10.5.0.2" :: ["10.5.0.3", "10.5.0.4"]) ++ more⟩
                  (envDegraded.GetForOptions
                    ⟨baseOpts ⟨"/state/support.zip"⟩ envDegraded.New.1
                      ("10.5.0.2" :: ["10.5.0.3", "10.5.0.4"]) ++ more⟩).1]
        ∧ (Crashdump envDegraded sampleCluster).outcome = .returned) :=
  ⟨⟨rfl, rfl, rfl, rfl,
      (Crashdump_degrading envNoClient sampleCluster "/state" ⟨"/state/support.zip"⟩
        "10.5.0.2" ["10.5.0.3", "10.5.0.4"] rfl rfl rfl).1
        ⟨"failed to determine endpoints"⟩ rfl⟩,
    ⟨rfl, rfl,
      ((Crashdump_degrading envDegraded sampleCluster "/state" ⟨"/state/support.zip"⟩
        "10.5.0.2" ["10.5.0.3", "10.5.0.4"] rfl rfl rfl).2.2 ⟨1⟩ rfl).imp
        fun _ h => ⟨h.1, h.2.1⟩⟩⟩

end Talos
